import Mathlib

/-!
Shallow embedding of the FootballTrader match-lifecycle core:
the Snapshot & Timeline Updater and Finalization Engine
(`src/autotrader/autotrader.py`), the LTD60 Strategy Order Engine
(`src/autotrader/strategies/ltd60.py`) and the background scheduler's
MatchFinder job (`src/autotrader/scheduler.py`).

Match records are rows of the `current_matches` table; every field that can
be NULL in the database is an `Option`.  Python floats are embedded as `ℚ`
(every price/stake in the code is an exact decimal), timestamps as epoch
seconds (`ℤ`), and the store's `update_current` primitive as a functional
record update.  Fallible Python paths (a `TypeError` raised by comparing
`None` to a number) are embedded with `Except`.
-/

namespace FootballTrader

/-! ## Python-style string helpers

The code relies on Python truthiness, `str.upper`/`str.lower`,
`str.strip`, substring tests (`"CANCEL" in status`), `int(...)` parsing, and
`"H-A".split("-", 1)`.  These are reproduced here on `List Char` so that all
definitions reduce in the kernel. -/

/-- Python truthiness of an optional string (`None` and `""` are falsy). -/
def truthyStr : Option String → Bool
  | none => false
  | some s => !s.isEmpty

/-- Python truthiness of an optional integer (`None` and `0` are falsy). -/
def truthyInt : Option Int → Bool
  | none => false
  | some n => n != 0

/-- `x or y` on optional strings, with Python truthiness. -/
def pyOrStr (a b : Option String) : Option String :=
  if truthyStr a then a else b

/-- Does `pre` start the list `l`? (cf. `str.startswith`, used for substring tests). -/
def leadEq : List Char → List Char → Bool
  | [], _ => true
  | _ :: _, [] => false
  | a :: as, b :: bs => a == b && leadEq as bs

/-- Is `needle` a contiguous sublist of `hay`? (Python's `needle in hay`). -/
def subSeq (needle : List Char) : List Char → Bool
  | [] => needle.isEmpty
  | c :: t => leadEq needle (c :: t) || subSeq needle t

/-- Python `needle in hay` on strings. -/
def strHas (needle hay : String) : Bool :=
  subSeq needle.data hay.data

/-- ASCII upper-casing of a character (Python `str.upper` on the code's ASCII statuses). -/
def upChar (c : Char) : Char :=
  if 'a' ≤ c ∧ c ≤ 'z' then Char.ofNat (c.toNat - 32) else c

/-- ASCII lower-casing of a character. -/
def lowChar (c : Char) : Char :=
  if 'A' ≤ c ∧ c ≤ 'Z' then Char.ofNat (c.toNat + 32) else c

/-- Python `s.upper()`. -/
def pyUpper (s : String) : String := String.mk (s.data.map upChar)

/-- Python `s.lower()`. -/
def pyLower (s : String) : String := String.mk (s.data.map lowChar)

/-- Is `c` ASCII whitespace (the cases Python's `str.strip` removes)? -/
def isWs (c : Char) : Bool :=
  c == ' ' || c == '\t' || c == '\n' || c == '\r'

/-- Drop leading whitespace. -/
def dropWsL : List Char → List Char
  | [] => []
  | c :: t => if isWs c then dropWsL t else c :: t

/-- Python `s.strip()` on a character list. -/
def stripChars (l : List Char) : List Char :=
  dropWsL ((dropWsL l.reverse).reverse)

/-- Accumulate decimal digits; fails on the first non-digit (helper for `int(...)`). -/
def parseDigitsAux (acc : Nat) : List Char → Option Nat
  | [] => some acc
  | c :: t => if c.isDigit then parseDigitsAux (acc * 10 + (c.toNat - 48)) t else none

/-- Python `int(s)` for decimal strings: optional surrounding whitespace, optional
sign, at least one digit.  `none` models the `ValueError` that the code catches. -/
def pyInt (s : String) : Option Int :=
  match stripChars s.data with
  | [] => none
  | '-' :: t => match t with
    | [] => none
    | _ => (parseDigitsAux 0 t).map (fun n => -(n : Int))
  | '+' :: t => match t with
    | [] => none
    | _ => (parseDigitsAux 0 t).map (fun n => (n : Int))
  | l => (parseDigitsAux 0 l).map (fun n => (n : Int))

/-- Split a character list at the first `'-'` (Python `s.split("-", 1)`);
`none` when there is no dash (the code's `"-" in ft` test fails). -/
def splitDashOnce : List Char → Option (List Char × List Char)
  | [] => none
  | c :: t =>
    if c = '-' then some ([], t)
    else (splitDashOnce t).map (fun p => (c :: p.1, p.2))

/-- The shared score-string parser of `autotrader.py` (`_parse_ft` and the two
inline copies): on `"H-A"` return both halves parsed with `int(half.strip())`;
on a falsy string, a string without `"-"`, or a parse failure return
`(None, None)`. -/
def parseFt (ft : Option String) : Option Int × Option Int :=
  match ft with
  | none => (none, none)
  | some s =>
    if s.isEmpty then (none, none)
    else
      match splitDashOnce s.data with
      | none => (none, none)
      | some (l, r) =>
        match pyInt (String.mk l), pyInt (String.mk r) with
        | some x, some y => (some x, some y)
        | _, _ => (none, none)

/-- `f"{int(h)}-{int(a)}"` — the code's full-time score string. -/
def scoreStr (h a : Int) : String := toString h ++ "-" ++ toString a

/-- `core/settings.py`: `STAKE_LTD_PAPER = 100.0`. -/
def STAKE_LTD_PAPER : ℚ := 100

/-- `core/settings.py`: `STAKE_LTD_LIVE = 4.0`. -/
def STAKE_LTD_LIVE : ℚ := 4

/-- `core/settings.py`: `LTD60_MAX_ODDS_ACCEPT = 4.5`. -/
def LTD60_MAX_ODDS_ACCEPT : ℚ := 9 / 2

/-- `core/settings.py`: `LTD60_MAX_SECOND_ENTRY_ODDS = 2.5`. -/
def LTD60_MAX_SECOND_ENTRY_ODDS : ℚ := 5 / 2

/-- `core/settings.py`: `LTD60_SECOND_ENTRY_TIME = 60`. -/
def LTD60_SECOND_ENTRY_TIME : Int := 60

/-- `core/settings.py`: `LTD60_KO_WINDOW_MINUTES = 12`. -/
def LTD60_KO_WINDOW_MINUTES : ℚ := 12

/-- `core/settings.py`: `SP_CAPTURE_WINDOW_SEC = 90`. -/
def SP_CAPTURE_WINDOW_SEC : Int := 90

/-! ## Data model: one row of `current_matches` -/

/-- A match record (one row of the current-matches store).  Field names follow
the database columns used by `autotrader.py` and `ltd60.py`;
`market_id` stands for the `market_id_MATCH_ODDS` column. -/
structure MatchRec where
  event_id : String := ""
  comp : Option String := none
  kickoff : Option Int := none
  market_id : Option String := none
  inplay_status : Option String := none
  time_elapsed : Option Int := none
  h_score : Option Int := none
  a_score : Option Int := none
  h_red_cards : Option Int := none
  a_red_cards : Option Int := none
  h_back_price : Option ℚ := none
  a_back_price : Option ℚ := none
  d_back_price : Option ℚ := none
  h_lay_price : Option ℚ := none
  a_lay_price : Option ℚ := none
  d_lay_price : Option ℚ := none
  market_state : Option String := none
  h_SP : Option ℚ := none
  a_SP : Option ℚ := none
  d_SP : Option ℚ := none
  fav : Option Int := none
  h_goals15 : Option Int := none
  a_goals15 : Option Int := none
  h_goals30 : Option Int := none
  a_goals30 : Option Int := none
  h_goals45 : Option Int := none
  a_goals45 : Option Int := none
  h_goals60 : Option Int := none
  a_goals60 : Option Int := none
  h_goals75 : Option Int := none
  a_goals75 : Option Int := none
  h_goals90 : Option Int := none
  a_goals90 : Option Int := none
  ft_score : Option String := none
  result : Option Int := none
  strategy : Option String := none
  pnl : Option ℚ := none
  e_ordered : Option Int := none
  e_price : Option ℚ := none
  e_stake : Option ℚ := none
  e_matched : Option ℚ := none
  e_remaining : Option ℚ := none
  e_status : Option String := none
  e_betid : Option String := none
  liability : Option ℚ := none
deriving Repr, DecidableEq

/-! ## Strategy Order Engine (LTD60, `src/autotrader/strategies/ltd60.py`)

The `db` argument of the Python methods is the single match row being
traded; `db.update_current` is a functional record update and
`db.fetch_current` is the identity on the threaded record.  The Betfair
API is a capability: order placement and cancellation outcomes are inputs
(`ApiResult`/`AckResult`), and the side effects sent to the exchange are
returned as a list of `OrderAction`s.  `PAPER_MODE` (a `core/settings.py`
configuration value, `1` in the shipped settings) is the `paper` argument. -/

/-- Outcome of `api.betting.place_orders`: a report (status, optional bet id,
size matched) or a raised exception. -/
inductive ApiResult where
  | ok (status : String) (betid : Option String) (matched : ℚ)
  | err (msg : String)
deriving Repr, DecidableEq

/-- Outcome of `api.betting.cancel_orders`: acknowledged or a raised exception. -/
inductive AckResult where
  | ok
  | err (msg : String)
deriving Repr, DecidableEq

/-- An instruction sent to the exchange. -/
inductive OrderAction where
  | placeLay (market : String) (price size : ℚ)
  | cancelOrder (market betid : String)
deriving Repr, DecidableEq

/-- A raised Python exception that escapes the strategy method. -/
inductive PyErr where
  | typeError
deriving Repr, DecidableEq

/-- `LTD60._normalise`: `(league_name or "").strip().lower()`. -/
def normalise (s : Option String) : String :=
  pyLower (String.mk (stripChars (s.getD "").data))

/-- Modelled from the spec: `BaseStrategy._order_snapshot` lives in
`autotrader/strategies/base_strategy.py`, which is not under `src/`.  Per the
spec's data model the order-lifecycle fields (`e_ordered` = number of entries
placed, `e_price`, `e_stake`, `e_matched`, `e_remaining`, `e_status`,
`e_betid`) are persisted on placement, and an entry-1 placement records
`e_ordered = 1` (the guard `if ev.get("e_ordered"): return` must stop a second
entry-1). -/
def orderSnapshot (price size matched remaining : ℚ) (status : String)
    (betid : Option String) (ev : MatchRec) : MatchRec :=
  { ev with
    e_ordered := some 1, e_price := some price, e_stake := some size,
    e_matched := some matched, e_remaining := some remaining,
    e_status := some status, e_betid := betid }

/-- The entry-1 timing guard:
`minutes_to_ko is not None and minutes_to_ko > LTD60_KO_WINDOW_MINUTES`. -/
def koWindowBlocked (minutes_to_ko : Option ℚ) : Bool :=
  match minutes_to_ko with
  | some m => decide (m > LTD60_KO_WINDOW_MINUTES)
  | none => false

/-- `LTD60._maybe_entry1`: lay the draw near kickoff, price capped at
`LTD60_MAX_ODDS_ACCEPT`.  Returns the updated row and the exchange actions. -/
def maybeEntry1 (paper : Bool) (d_price : Option ℚ) (minutes_to_ko : Option ℚ)
    (resp : ApiResult) (market_id : String) (ev : MatchRec) :
    MatchRec × List OrderAction :=
  if truthyInt ev.e_ordered then (ev, [])  -- already in
  else if koWindowBlocked minutes_to_ko then (ev, [])
  else
    match d_price with
    | none => (ev, [])
    | some d =>
      if d ≤ 0 then (ev, [])
      else
        let size := if paper then STAKE_LTD_PAPER else STAKE_LTD_LIVE
        let price := if d > LTD60_MAX_ODDS_ACCEPT then LTD60_MAX_ODDS_ACCEPT else d
        if paper then
          -- Simulated LIMIT order: capped orders are recorded unmatched
          let matched : ℚ := if price ≥ LTD60_MAX_ODDS_ACCEPT then 0 else size
          let remaining : ℚ := if price ≥ LTD60_MAX_ODDS_ACCEPT then size else 0
          let liability : ℚ :=
            if price ≥ LTD60_MAX_ODDS_ACCEPT then 0 else max 0 ((price - 1) * size)
          let ev1 := orderSnapshot price size matched remaining "PAPER_EXECUTED" none ev
          ({ ev1 with liability := some liability }, [])
        else
          match resp with
          | .ok st betid m =>
            let ev1 := orderSnapshot price size m (max 0 (size - m)) st betid ev
            ({ ev1 with liability := some (max 0 ((price - 1) * size)) },
             [.placeLay market_id price size])
          | .err e =>
            (orderSnapshot price size 0 size ("ERROR:" ++ e) none ev, [])

/-- `LTD60._maybe_entry2`: optional second lay at 60' in late-goal leagues,
price capped at `LTD60_MAX_SECOND_ENTRY_ODDS`.  The price cap on line 331 is
computed before the `if d_price is None` guard on line 338, so an absent draw
price raises `TypeError` (embedded as `Except.error`).  The returned `Bool`
is true when a second entry was recorded. -/
def maybeEntry2 (paper : Bool) (lateGoals : List String) (d_price : Option ℚ)
    (resp : ApiResult) (market_id : String) (ev : MatchRec) :
    Except PyErr (MatchRec × List OrderAction × Bool) :=
  if ¬ (normalise ev.comp ∈ lateGoals) then .ok (ev, [], false)
  else if truthyInt ev.e_ordered then
    if ev.e_ordered.getD 0 = 2 then .ok (ev, [], false)  -- already ordered
    else
      -- draw at evaluation time, inferred from scores (absent scores parse as 0)
      let h_sc := ev.h_score.getD 0
      let a_sc := ev.a_score.getD 0
      if ¬ (h_sc = 0 ∧ a_sc = 0) then .ok (ev, [], false)
      else
        match ev.time_elapsed with
        | none => .ok (ev, [], false)
        | some t =>
          if t = 0 then .ok (ev, [], false)  -- Python truthiness of time_elapsed
          else if ¬ (t > LTD60_SECOND_ENTRY_TIME) then .ok (ev, [], false)
          else
            let second_size := if paper then STAKE_LTD_PAPER else STAKE_LTD_LIVE
            match d_price with
            | none => .error .typeError  -- `None > LTD60_MAX_SECOND_ENTRY_ODDS`
            | some d =>
              let price :=
                if d > LTD60_MAX_SECOND_ENTRY_ODDS then LTD60_MAX_SECOND_ENTRY_ODDS else d
              -- `if d_price is None: return` is unreachable here: d_price is present
              if (some d : Option ℚ) = none then .ok (ev, [], false)
              else if paper then
                let prev_matched := ev.e_matched.getD 0
                let prev_liability := ev.liability.getD 0
                let prev_stake := ev.e_stake.getD 0
                let prev_remaining := ev.e_remaining.getD 0
                let matched :=
                  if price ≥ LTD60_MAX_SECOND_ENTRY_ODDS then prev_matched
                  else prev_matched + STAKE_LTD_PAPER
                let remaining :=
                  if price ≥ LTD60_MAX_SECOND_ENTRY_ODDS then prev_remaining + STAKE_LTD_PAPER
                  else 0
                let liability :=
                  if price ≥ LTD60_MAX_SECOND_ENTRY_ODDS then prev_liability
                  else prev_liability + max 0 ((price - 1) * STAKE_LTD_PAPER)
                let new_stake := prev_stake + second_size
                .ok ({ ev with
                        e_ordered := some 2, e_stake := some new_stake,
                        e_status := some "PAPER_SECOND", e_matched := some matched,
                        e_remaining := some remaining, liability := some liability },
                     [], true)
              else
                match resp with
                | .ok st betid m =>
                  let prev_stake := ev.e_stake.getD 0
                  let new_stake := prev_stake + second_size
                  let ev1 := { ev with
                                e_ordered := some 2, e_status := some st,
                                e_stake := some new_stake,
                                e_matched := some (ev.e_matched.getD 0 + m),
                                e_betid := betid }
                  let effective_price :=
                    match ev.e_price with
                    | some p => if p ≠ 0 then p else price  -- `ev.get("e_price") or price`
                    | none => price
                  .ok ({ ev1 with liability := some (max 0 ((effective_price - 1) * new_stake)) },
                       [.placeLay market_id price second_size], true)
                | .err e =>
                  .ok ({ ev with e_status := some ("SECOND_ERROR:" ++ e) }, [], false)
  else .ok (ev, [], false)

/-- `LTD60._maybe_cancel_entry1`: cancel an unmatched capped entry 1 at 60'.
`apiAvail` is `api is not None`; `ack` is the outcome of the live
`cancel_orders` call (unused in paper mode). -/
def maybeCancelEntry1 (paper apiAvail : Bool) (ack : AckResult) (market_id : String)
    (time_elapsed _h_score _a_score : Option Int) (ev : MatchRec) :
    MatchRec × List OrderAction :=
  if ¬ apiAvail then (ev, [])
  else if ¬ truthyInt ev.e_ordered then (ev, [])
  else if ¬ paper ∧ ¬ truthyStr ev.e_betid then (ev, [])
  else
    let status := pyUpper (ev.e_status.getD "")
    if strHas "CANCEL" status ∨ strHas "EXECUTION_COMPLETE" status then (ev, [])
    else
      match ev.e_price with
      | none => (ev, [])
      | some p =>
        if p ≠ LTD60_MAX_ODDS_ACCEPT then (ev, [])
        else
          let matched := ev.e_matched.getD 0
          if matched > 0 then (ev, [])  -- do not cancel if any matched
          else
            let cancel_for_60 :=
              match time_elapsed with
              | some t => decide (t ≥ LTD60_SECOND_ENTRY_TIME)
              | none => false
            if !cancel_for_60 then (ev, [])
            else if ¬ paper then
              match ack with
              | .ok =>
                ({ ev with e_status := some "CANCELLED_UNMATCHED BY 60MIN",
                           e_remaining := some 0, e_matched := some 0 },
                 [.cancelOrder market_id (ev.e_betid.getD "")])
              | .err e =>
                ({ ev with e_status := some ("CANCEL_ERR_UNMATCHED BY 60MIN:" ++ e) },
                 [.cancelOrder market_id (ev.e_betid.getD "")])
            else
              ({ ev with e_status := some "CANCELLED_UNMATCHED BY 60MIN",
                         e_remaining := some 0, e_matched := some 0 }, [])

/-- `LTD60._maybe_cancel_entry2`: cancel an unmatched capped entry 2 at 75'.
The matched test subtracts half the accumulated stake
(`e_stake / 2`) from the running `e_matched` total before comparing to zero. -/
def maybeCancelEntry2 (paper apiAvail : Bool) (ack : AckResult) (market_id : String)
    (time_elapsed _h_score _a_score : Option Int) (ev : MatchRec) :
    MatchRec × List OrderAction :=
  if ¬ apiAvail then (ev, [])
  else if ev.e_ordered.getD 0 ≠ 2 then (ev, [])
  else if ¬ paper ∧ ¬ truthyStr ev.e_betid then (ev, [])
  else
    let status := pyUpper (ev.e_status.getD "")
    if strHas "CANCEL" status ∨ strHas "EXECUTION_COMPLETE" status then (ev, [])
    else
      match ev.e_price with
      | none => (ev, [])
      | some p =>
        if p ≠ LTD60_MAX_SECOND_ENTRY_ODDS then (ev, [])
        else
          let second_stake := ev.e_stake.getD 0 / 2
          let matched := ev.e_matched.getD 0 - second_stake
          if matched > 0 then (ev, [])  -- do not cancel if any matched
          else
            let cancel_for_75 :=
              match time_elapsed with
              | some t => decide (t ≥ 75)
              | none => false
            if !cancel_for_75 then (ev, [])
            else if ¬ paper then
              match ack with
              | .ok =>
                ({ ev with e_status := some "CANCELLED_UNMATCHED BY 75MIN",
                           e_remaining := some 0 },
                 [.cancelOrder market_id (ev.e_betid.getD "")])
              | .err e =>
                ({ ev with e_status := some ("CANCEL_ERR_UNMATCHED BY 75MIN:" ++ e) },
                 [.cancelOrder market_id (ev.e_betid.getD "")])
            else
              ({ ev with e_status := some "CANCELLED_UNMATCHED BY 75MIN",
                         e_remaining := some 0 }, [])

/-! ## Snapshot & Timeline Updater (`AutoTrader._update_goal_timeline`,
`AutoTrader._update_inplay_info` in `src/autotrader/autotrader.py`) -/

/-- Write the 15' band pair. -/
def setBand15 (h a : Int) (ev : MatchRec) : MatchRec :=
  { ev with h_goals15 := some h, a_goals15 := some a }

/-- Write the 30' band pair. -/
def setBand30 (h a : Int) (ev : MatchRec) : MatchRec :=
  { ev with h_goals30 := some h, a_goals30 := some a }

/-- Write the 45' band pair. -/
def setBand45 (h a : Int) (ev : MatchRec) : MatchRec :=
  { ev with h_goals45 := some h, a_goals45 := some a }

/-- Write the 60' band pair. -/
def setBand60 (h a : Int) (ev : MatchRec) : MatchRec :=
  { ev with h_goals60 := some h, a_goals60 := some a }

/-- Write the 75' band pair. -/
def setBand75 (h a : Int) (ev : MatchRec) : MatchRec :=
  { ev with h_goals75 := some h, a_goals75 := some a }

/-- Write the 90' band pair. -/
def setBand90 (h a : Int) (ev : MatchRec) : MatchRec :=
  { ev with h_goals90 := some h, a_goals90 := some a }

/-- The in-band part of `_update_goal_timeline`: pick the band from
`time_elapsed` (`t ≤ 15`, `15 < t ≤ 30`, …, `t > 75`) and run `maybe_write`,
which stores the current score whenever both scores are available.
`maybe_write` receives the stored band pair as `cur_h`/`cur_a` but never
reads them. -/
def inBandWrite (t? h? a? : Option Int) (ev : MatchRec) : MatchRec :=
  match t?, h?, a? with
  | some t, some h, some a =>
    if t ≤ 15 then setBand15 h a ev
    else if t ≤ 30 then setBand30 h a ev
    else if t ≤ 45 then setBand45 h a ev
    else if t ≤ 60 then setBand60 h a ev
    else if t ≤ 75 then setBand75 h a ev
    else setBand90 h a ev
  | _, _, _ => ev

/-- The final score used by the Finished backfill: the parsed `ft_score` when
both halves parse, else the last known live scores, else nothing. -/
def finalFtPair (ft : Option String) (h? a? : Option Int) : Option (Int × Int) :=
  match parseFt ft with
  | (some x, some y) => some (x, y)
  | _ =>
    match h?, a? with
    | some h, some a => some (h, a)
    | _, _ => none

/-- `AutoTrader._update_goal_timeline`: in-band write, then — when
`inplay_status == "Finished"` — backfill each band pair that was null
*at entry to the call* with the final score. -/
def updateGoalTimeline (ev : MatchRec) (t? : Option Int) (ip : Option String)
    (h? a? : Option Int) (ft : Option String) : MatchRec :=
  -- stored bands, read before any write
  let c15h := ev.h_goals15; let c15a := ev.a_goals15
  let c30h := ev.h_goals30; let c30a := ev.a_goals30
  let c45h := ev.h_goals45; let c45a := ev.a_goals45
  let c60h := ev.h_goals60; let c60a := ev.a_goals60
  let c75h := ev.h_goals75; let c75a := ev.a_goals75
  let c90h := ev.h_goals90; let c90a := ev.a_goals90
  let ev1 := inBandWrite t? h? a? ev
  if ip = some "Finished" then
    match finalFtPair ft h? a? with
    | none => ev1
    | some (fx, fy) =>
      let e2 := if c15h = none ∧ c15a = none then setBand15 fx fy ev1 else ev1
      let e3 := if c30h = none ∧ c30a = none then setBand30 fx fy e2 else e2
      let e4 := if c45h = none ∧ c45a = none then setBand45 fx fy e3 else e3
      let e5 := if c60h = none ∧ c60a = none then setBand60 fx fy e4 else e4
      let e6 := if c75h = none ∧ c75a = none then setBand75 fx fy e5 else e5
      if c90h = none ∧ c90a = none then setBand90 fx fy e6 else e6
  else ev1

/-- One in-play scores response from the gateway
(`api.in_play_service.get_scores`). -/
structure ScoresData where
  status : Option String := none
  te : Option Int := none
  h : Option Int := none
  a : Option Int := none
  hr : Option Int := none
  ar : Option Int := none
deriving Repr, DecidableEq

/-- One runner of a market book, reduced to its best back/lay prices. -/
structure RunnerData where
  back : Option ℚ := none
  lay : Option ℚ := none
deriving Repr, DecidableEq

/-- One market book (`api.betting.list_market_book`). -/
structure BookData where
  runners : List RunnerData := []
  status : Option String := none
deriving Repr, DecidableEq

/-- Best available back price of runner `i` (`_best_back_price(runners[i])`). -/
def runnerBack (b : BookData) (i : Nat) : Option ℚ :=
  match b.runners.get? i with
  | some r => r.back
  | none => none

/-- Best available lay price of runner `i`. -/
def runnerLay (b : BookData) (i : Nat) : Option ℚ :=
  match b.runners.get? i with
  | some r => r.lay
  | none => none

/-- The volatile score/status sync of `_update_inplay_info`: always overwrite
status, elapsed time, scores and red cards with the gateway values. -/
def volatileUpd (s : ScoresData) (ev : MatchRec) : MatchRec :=
  { ev with
    inplay_status := s.status, time_elapsed := s.te,
    h_score := s.h, a_score := s.a,
    h_red_cards := s.hr, a_red_cards := s.ar }

/-- The market-price sync of `_update_inplay_info`: with at least three
runners, overwrite the six best-back/best-lay prices
(home = runner 0, away = runner 1, draw = runner 2) and the market state. -/
def priceUpd (b : BookData) (ev : MatchRec) : MatchRec :=
  if b.runners.length ≥ 3 then
    { ev with
      h_back_price := runnerBack b 0, a_back_price := runnerBack b 1,
      d_back_price := runnerBack b 2,
      h_lay_price := runnerLay b 0, a_lay_price := runnerLay b 1,
      d_lay_price := runnerLay b 2,
      market_state := b.status }
  else ev

/-- Favourite from effective snapshot prices: lower price wins
(1 = home, 2 = away, 0 = equal). -/
def favCompare (h a : ℚ) : Int :=
  if h < a then 1 else if a < h then 2 else 0

/-- The effective home price used for `fav`: the captured `h_SP` if present,
else the current snapshot (runner 0 best back). -/
def effectiveHome (b : BookData) (ev : MatchRec) : Option ℚ :=
  match ev.h_SP with
  | some v => some v
  | none => runnerBack b 0

/-- The effective away price used for `fav`: the captured `a_SP` if present,
else the current snapshot (runner 1 best back). -/
def effectiveAway (b : BookData) (ev : MatchRec) : Option ℚ :=
  match ev.a_SP with
  | some v => some v
  | none => runnerBack b 1

/-- The one-time SP + favourite capture of `_update_inplay_info`.  `origTe` and
`origIps` are `time_elapsed`/`inplay_status` of the caller's (stale) event
dict; the SP/fav nullity tests read the freshly fetched row `ev`. -/
def spCapture (fallbackInplay : Bool) (now : Int) (origTe : Option Int)
    (origIps : Option String) (b : BookData) (ev : MatchRec) : MatchRec :=
  let needs_sp := ev.h_SP = none ∨ ev.a_SP = none ∨ ev.d_SP = none
  let needs_fav := ev.fav = none
  -- 1) pre-kickoff window capture
  let cap1 : Bool :=
    match ev.kickoff with
    | some k => decide (0 ≤ k - now) && decide (k - now ≤ SP_CAPTURE_WINDOW_SEC)
    | none => false
  -- 2) first in-play fallback
  let inplayStarted : Bool :=
    (match origTe with
     | some t => decide (0 ≤ t)
     | none => false) ||
    (origIps = some "KickOff" || origIps = some "InPlay" ||
     origIps = some "SecondHalfKickOff")
  let capture_now : Bool :=
    cap1 || (!cap1 && fallbackInplay && decide needs_sp && inplayStarted)
  if capture_now ∧ b.runners.length ≥ 3 then
    let h_snap := runnerBack b 0
    let a_snap := runnerBack b 1
    let d_snap := runnerBack b 2
    let ev1 := if ev.h_SP = none ∧ h_snap ≠ none then { ev with h_SP := h_snap } else ev
    let ev2 := if ev.a_SP = none ∧ a_snap ≠ none then { ev1 with a_SP := a_snap } else ev1
    let ev3 := if ev.d_SP = none ∧ d_snap ≠ none then { ev2 with d_SP := d_snap } else ev2
    match effectiveHome b ev, effectiveAway b ev with
    | some eh, some ea =>
      if needs_fav then { ev3 with fav := some (favCompare eh ea) } else ev3
    | _, _ => ev3
  else ev

/-- `AutoTrader._update_inplay_info`: volatile sync + goal timeline when a
scores response arrived, then market prices and the one-time SP/favourite
capture when a market id and a book are available.  The goal-timeline call
receives the caller's (pre-call) `ft_score`, and the SP fallback trigger reads
the caller's stale `time_elapsed`/`inplay_status`. -/
def updateInplayInfo (fallbackInplay : Bool) (now : Int) (scores : Option ScoresData)
    (book : Option BookData) (ev : MatchRec) : MatchRec :=
  let ev1 :=
    match scores with
    | some s => updateGoalTimeline (volatileUpd s ev) s.te s.status s.h s.a ev.ft_score
    | none => ev
  if ¬ truthyStr ev.market_id then ev1
  else
    match book with
    | none => ev1
    | some b =>
      spCapture fallbackInplay now ev.time_elapsed ev.inplay_status b (priceUpd b ev1)

/-! ## Finalization Engine (`AutoTrader.decide_to_archive`,
`AutoTrader._compute_result` in `src/autotrader/autotrader.py`) -/

/-- `AutoTrader._compute_result`: 1 when home ≠ away, 0 on a draw, `None` when
either score is missing. -/
def computeResult (h? a? : Option Int) : Option Int :=
  match h?, a? with
  | some h, some a => some (if h ≠ a then 1 else 0)
  | _, _ => none

/-- Modelled from the spec: `BaseStrategy.calculate_pnl` lives in
`autotrader/strategies/base_strategy.py`, which is not under `src/`.  Per spec
§4.2, for a settled result: decisive ⇒ `+matched stake`; draw ⇒
`-(P − 1) × matched` with `P` the (capped) recorded entry price; entries that
never matched contribute zero; an unknown result yields no PnL. -/
def calculatePnl (ev : MatchRec) (result : Option Int) : Option ℚ :=
  match result with
  | none => none
  | some r =>
    let m := ev.e_matched.getD 0
    let p := ev.e_price.getD 0
    if r = 0 then some (-((p - 1) * m)) else some m

/-- `f"{int(h_score)}-{int(a_score)}" if h_score is not None and a_score is not
None else None` — the live-score fallback for a missing `ft_score`. -/
def liveFt (ev : MatchRec) : Option String :=
  match ev.h_score, ev.a_score with
  | some h, some a => some (scoreStr h a)
  | _, _ => none

/-- Is the stored status outside the terminal set
(`status not in ("Finished", "Cancelled", "Abandoned")` — `None` qualifies)? -/
def notTerminal (st : Option String) : Prop :=
  st ≠ some "Finished" ∧ st ≠ some "Cancelled" ∧ st ≠ some "Abandoned"

instance (st : Option String) : Decidable (notTerminal st) := by
  unfold notTerminal; infer_instance

/-- Result of one `decide_to_archive` call on one row: the final state of the
current row, the archived copy if `archive_match` ran, and whether
`delete_from_current` ran. -/
structure ArchOutcome where
  db : MatchRec
  archived : Option MatchRec := none
  deleted : Bool := false
deriving Repr, DecidableEq

/-- `AutoTrader.decide_to_archive`: set `ft_score` on natural finish, archive a
finished row (falling back to live scores when `ft_score` does not parse),
force-finish a non-terminal row more than 4 hours past kickoff that has a
last-known score, and delete an unusable row more than a day past kickoff.
`ev` is both the caller's event dict and the current row (the caller
re-fetches the row immediately before the call); `now` is the wall clock.
A kickoff that is absent or unparseable is `none`. -/
def decideToArchive (now : Int) (ev : MatchRec) : ArchOutcome :=
  -- If finished, set FT score (once)
  let db1 :=
    if ev.inplay_status = some "Finished" ∧ ev.h_score ≠ none ∧ ev.a_score ≠ none then
      { ev with ft_score := some (scoreStr (ev.h_score.getD 0) (ev.a_score.getD 0)) }
    else ev
  -- ---- ARCHIVE ON FINISH ----
  let natural : MatchRec × Option MatchRec :=
    if ev.inplay_status = some "Finished" then
      if truthyStr db1.ft_score then
        let f0 := db1.ft_score.getD ""
        let p := parseFt (some f0)
        -- if parsing failed but we have live scores, use them
        let step : String × Option Int × Option Int × MatchRec :=
          match p with
          | (some x, some y) => (f0, some x, some y, db1)
          | _ =>
            match ev.h_score, ev.a_score with
            | some h, some a =>
              (scoreStr h a, some h, some a, { db1 with ft_score := some (scoreStr h a) })
            | _, _ => (f0, none, none, db1)
        match step with
        | (f, fth, fta, db1b) =>
          let rv := computeResult fth fta
          let db1c := match rv with
                      | some r => { db1b with result := some r }
                      | none => db1b
          let pn := calculatePnl ev rv
          let db1d := { db1c with
                        inplay_status := some "Finished", ft_score := some f,
                        result := rv, pnl := pn }
          (db1d, some db1d)
      else (db1, none)
    else (db1, none)
  -- ---- ARCHIVE IF COMPLETE BUT NOT 'FINISHED' (forced finish) ----
  let forced : MatchRec × Option MatchRec :=
    match ev.kickoff with
    | some k =>
      if notTerminal ev.inplay_status ∧ now - k > 4 * 3600 then
        let ftO := pyOrStr ev.ft_score (liveFt ev)
        if truthyStr ftO then
          let f := ftO.getD ""
          let pr := parseFt (some f)
          let rv := computeResult pr.1 pr.2
          let pn := calculatePnl ev rv
          let db2 := { natural.1 with
                       inplay_status := some "Finished", ft_score := some f,
                       result := rv, pnl := pn }
          (db2, some db2)
        else (natural.1, none)
      else (natural.1, none)
    | none => (natural.1, none)
  -- ---- DELETE IF UNUSEABLE ----
  let del : Bool :=
    match ev.kickoff with
    | some k =>
      decide (now - k > 86400) &&
      decide (notTerminal ev.inplay_status ∨ ev.inplay_status = none) &&
      !truthyStr ev.ft_score &&
      ((truthyInt ev.time_elapsed && decide (ev.time_elapsed.getD 0 < 90)) ||
       !truthyInt ev.time_elapsed)
    | none => false
  { db := forced.1
    archived := match natural.2 with
                | some r => some r
                | none => forced.2
    deleted := del }

/-! ## Scheduler (`src/autotrader/scheduler.py`) -/

/-- What one MatchFinder attempt does: completes, raises
`sqlite3.OperationalError` with a message, or raises some other exception. -/
inductive AttemptRes where
  | ok
  | opErr (msg : String)
  | exc
deriving Repr, DecidableEq

/-- `"database is locked" in str(e).lower()`. -/
def lockedCheck (msg : String) : Bool :=
  strHas "database is locked" (pyLower msg)

/-- How `_run_matchfinder_job` ends: normal completion, a logged-and-abandoned
run, retries exhausted (the `for` loop ends), or an exception propagating out
of the function. -/
inductive JobResult where
  | completed
  | abandoned
  | exhausted
  | raised (msg : String)
deriving Repr, DecidableEq

/-- The retry loop of `_run_matchfinder_job` from attempt number `a` with
`fuel` attempts left; returns the outcome and the list of backoff sleeps
(`0.5 * attempt` seconds). -/
def runJobAux (f : Nat → AttemptRes) (a : Nat) : Nat → JobResult × List ℚ
  | 0 => (.exhausted, [])
  | fuel + 1 =>
    match f a with
    | .ok => (.completed, [])
    | .exc => (.abandoned, [])
    | .opErr m =>
      if lockedCheck m then
        let rest := runJobAux f (a + 1) fuel
        (rest.1, (a : ℚ) / 2 :: rest.2)
      else (.raised m, [])

/-- `_run_matchfinder_job`: `for attempt in range(1, 6)` — up to five attempts;
a locked-database `OperationalError` sleeps `0.5 * attempt` and retries, any
other `OperationalError` is re-raised, and any other exception is logged and
the run abandoned. -/
def runMatchfinderJob (f : Nat → AttemptRes) : JobResult × List ℚ :=
  runJobAux f 1 5

instance {ε α : Type} [DecidableEq ε] [DecidableEq α] : DecidableEq (Except ε α) := by
  intro a b
  cases a <;> cases b
  case error.error e e' =>
    exact if h : e = e' then .isTrue (by rw [h]) else .isFalse (by simpa using h)
  case error.ok e x => exact .isFalse (by simp)
  case ok.error x e => exact .isFalse (by simp)
  case ok.ok x y =>
    exact if h : x = y then .isTrue (by rw [h]) else .isFalse (by simpa using h)

/-! ## Derived predicates and concrete rows used in the verification -/

/-- Each goal-timeline band pair is either fully null or fully populated.
The code always writes `h_goalsXX`/`a_goalsXX` together, so stored rows
satisfy this. -/
def bandsConsistent (ev : MatchRec) : Prop :=
  (ev.h_goals15 = none ↔ ev.a_goals15 = none) ∧
  (ev.h_goals30 = none ↔ ev.a_goals30 = none) ∧
  (ev.h_goals45 = none ↔ ev.a_goals45 = none) ∧
  (ev.h_goals60 = none ↔ ev.a_goals60 = none) ∧
  (ev.h_goals75 = none ↔ ev.a_goals75 = none) ∧
  (ev.h_goals90 = none ↔ ev.a_goals90 = none)

instance (ev : MatchRec) : Decidable (bandsConsistent ev) := by
  unfold bandsConsistent; infer_instance

/-- All six goal-timeline band pairs are populated. -/
def allBandsSet (ev : MatchRec) : Prop :=
  ev.h_goals15 ≠ none ∧ ev.a_goals15 ≠ none ∧
  ev.h_goals30 ≠ none ∧ ev.a_goals30 ≠ none ∧
  ev.h_goals45 ≠ none ∧ ev.a_goals45 ≠ none ∧
  ev.h_goals60 ≠ none ∧ ev.a_goals60 ≠ none ∧
  ev.h_goals75 ≠ none ∧ ev.a_goals75 ≠ none ∧
  ev.h_goals90 ≠ none ∧ ev.a_goals90 ≠ none

/-- A row whose 15' band pair is already populated with the 0–0 score. -/
def c2rec : MatchRec := { event_id := "E2", h_goals15 := some 0, a_goals15 := some 0 }

/-- A live-mode row after an entry-1 lay at exactly the second-entry price cap
(draw price 2.5): capped, nothing matched, bet `B1` resting. -/
def c1rec0 : MatchRec :=
  { event_id := "E1", comp := some "latecup", h_score := some 0,
    a_score := some 0, time_elapsed := some 80, e_ordered := some 1,
    e_price := some (5 / 2), e_stake := some 4, e_matched := some 0,
    e_remaining := some 4, e_status := some "EXECUTABLE", e_betid := some "B1" }

/-- `c1rec0` after a live entry 2 whose placement report matched 3.0:
`e_matched` rises by entry 2's own matched amount. -/
def c1rec1 : MatchRec :=
  { c1rec0 with e_ordered := some 2, e_stake := some 8, e_matched := some 3,
                e_betid := some "B2", liability := some 12 }

/-- `c1rec1` after `_maybe_cancel_entry2` cancels the combined order. -/
def c1rec2 : MatchRec :=
  { c1rec1 with e_status := some "CANCELLED_UNMATCHED BY 75MIN", e_remaining := some 0 }

/-- A paper-mode row after a capped entry 1 (price 4.5, unmatched, full stake
remaining) at a scoreless 61st minute in a late-goal league. -/
def c5rec : MatchRec :=
  { event_id := "E5", comp := some "latecup", h_score := some 0,
    a_score := some 0, time_elapsed := some 61, e_ordered := some 1,
    e_price := some (9 / 2), e_stake := some 100, e_matched := some 0,
    e_remaining := some 100, liability := some 0,
    e_status := some "PAPER_EXECUTED" }

/-- `c5rec` after the paper entry 2 at draw price 2.2. -/
def c5res : MatchRec :=
  { c5rec with e_ordered := some 2, e_stake := some 200, e_matched := some 100,
               e_remaining := some 0, e_status := some "PAPER_SECOND",
               liability := some 120 }

/-- A row satisfying every entry-2 gate except that no entry was ever placed
(`e_ordered` unset). -/
def c6rec : MatchRec :=
  { event_id := "E6", comp := some "latecup", h_score := some 0,
    a_score := some 0, time_elapsed := some 61 }

/-- Scenario D: a row whose status never reached Finished, with a last-known
`ft_score` of 2–1 and no goal-timeline band ever captured. -/
def evC7 : MatchRec :=
  { event_id := "E7", kickoff := some 0, inplay_status := some "InPlay",
    h_score := some 2, a_score := some 1, ft_score := some "2-1",
    time_elapsed := some 90 }

/-- An entry-1-bearing row used to exercise the pre-kickoff paper placement. -/
def evC4 : MatchRec := { event_id := "E4", comp := some "leaguex" }

/-- A row with captured snapshot prices and favourite, plus a market id, used
to exercise the snapshot updater. -/
def evC8 : MatchRec :=
  { event_id := "E8", market_id := some "M8", kickoff := some 50,
    h_SP := some (7 / 2), a_SP := some 3, d_SP := some (16 / 5), fav := some 1 }

/-- A pre-kickoff order book for `evC8`. -/
def bookC8 : BookData :=
  { runners := [{ back := some 2, lay := some (21 / 10) },
                { back := some 3, lay := some (31 / 10) },
                { back := some 4, lay := some (41 / 10) }],
    status := some "OPEN" }

/-- A row for the backfill witness: only the 15' band was captured in play. -/
def evC3w : MatchRec :=
  { event_id := "E3W", h_goals15 := some 0, a_goals15 := some 0 }

/-- `c5rec` after a *capped* paper entry 2 (draw price ≥ 2.5): the second
stake rests unmatched, so remaining accumulates. -/
def c5capRes : MatchRec :=
  { c5rec with e_ordered := some 2, e_stake := some 200, e_matched := some 0,
               e_remaining := some 200, e_status := some "PAPER_SECOND",
               liability := some 0 }

/-- A two-entry row whose running matched total exceeds half its stake: both
cancellation guards must veto. -/
def c1vetoRec : MatchRec :=
  { event_id := "E1V", e_ordered := some 2, e_price := some (5 / 2),
    e_stake := some 8, e_matched := some 7, e_remaining := some 1,
    e_status := some "EXECUTABLE", e_betid := some "B9" }

/-- A stale in-play row with a last-known final score whose goal-timeline
bands were never captured: polled past the 4-hour timeout it is archived by
forced finish with every band pair still null. -/
def evC3 : MatchRec :=
  { event_id := "E3", kickoff := some 0, inplay_status := some "InPlay",
    h_score := some 2, a_score := some 1, ft_score := some "2-1",
    time_elapsed := some 90 }

/-- MatchFinder attempts that always raise a non-lock `OperationalError`. -/
def c9diskErr : Nat → AttemptRes := fun _ => .opErr "disk I/O error"

/-- MatchFinder attempts that always raise a locked-database error. -/
def c9locked : Nat → AttemptRes := fun _ => .opErr "database is locked"

/-- MatchFinder attempts that raise a generic exception on the first try. -/
def c9generic : Nat → AttemptRes := fun _ => .exc

/-! ## Claims -/

/-- C2 (code bug): `_update_goal_timeline`'s `maybe_write` ignores the stored
band pair it is handed (`cur_h`, `cur_a` are parameters it never reads), so a
later tick inside an already-populated band overwrites the pair: with the 15'
band already holding 0–0, a tick at minute 10 with score 1–0 rewrites it to
1–0, contradicting the function's own "write-once per band / first value wins"
documentation. -/
theorem C2_band_overwrite :
    c2rec.h_goals15 = some 0 ∧ c2rec.a_goals15 = some 0 ∧
    (updateGoalTimeline c2rec (some 10) (some "InPlay") (some 1) (some 0) none).h_goals15
      = some 1 ∧
    (updateGoalTimeline c2rec (some 10) (some "InPlay") (some 1) (some 0) none).a_goals15
      = some 0 := by
  decide

/-- C1 (counterexample): in live mode, after a capped entry 1 (price 2.5,
nothing matched) the entry-2 placement report matches 3.0 — entry 2's own
matched amount is `e_matched` 3 − 0 = 3 > 0 — yet `_maybe_cancel_entry2`
still cancels at minute 80, because its guard subtracts `e_stake / 2 = 4`
(entry 1's stake, not entry 1's matched amount) before testing for zero: it
issues a cancel instruction and sets a cancelled `e_status`. -/
theorem C1_counterexample :
    maybeEntry2 false ["latecup"] (some 2) (ApiResult.ok "EXECUTABLE" (some "B2") 3) "M1" c1rec0
      = Except.ok (c1rec1, [OrderAction.placeLay "M1" 2 4], true) ∧
    c1rec1.e_matched.getD 0 - c1rec0.e_matched.getD 0 = 3 ∧
    maybeCancelEntry2 false true AckResult.ok "M1" (some 80) (some 0) (some 0) c1rec1
      = (c1rec2, [OrderAction.cancelOrder "M1" "B2"]) ∧
    c1rec2.e_status = some "CANCELLED_UNMATCHED BY 75MIN" ∧
    c1rec2.e_remaining = some 0 := by
  have hn : normalise (some "latecup") = "latecup" := by decide
  have hs : strHas "CANCEL" (pyUpper "EXECUTABLE") = false := by decide
  have hs2 : strHas "EXECUTION_COMPLETE" (pyUpper "EXECUTABLE") = false := by decide
  refine ⟨?_, by norm_num [c1rec0, c1rec1], ?_, by norm_num [c1rec1, c1rec2],
    by norm_num [c1rec1, c1rec2]⟩
  · norm_num [maybeEntry2, c1rec0, c1rec1, hn, truthyInt, Option.some_ne_none,
      LTD60_MAX_SECOND_ENTRY_ODDS, STAKE_LTD_LIVE, LTD60_SECOND_ENTRY_TIME]
  · have hb : "B2".isEmpty = false := by decide
    norm_num [maybeCancelEntry2, c1rec0, c1rec1, c1rec2, hs, hs2, hb, truthyStr,
      LTD60_MAX_SECOND_ENTRY_ODDS]

/-- C5 (counterexample): after a capped entry 1 (matched 0, remaining 100),
the paper entry 2 at draw price 2.2 is fully matched, so entry 2's own
remaining contribution is zero — yet the recorded `e_remaining` becomes 0,
replacing entry 1's remaining 100 instead of accumulating onto it. -/
theorem C5_counterexample :
    maybeEntry2 true ["latecup"] (some (11 / 5)) (ApiResult.ok "S" none 0) "M" c5rec
      = Except.ok (c5res, [], true) ∧
    c5rec.e_remaining = some 100 ∧
    c5res.e_matched.getD 0 - c5rec.e_matched.getD 0 = 100 ∧
    c5res.e_remaining = some 0 ∧
    c5res.e_remaining ≠ c5rec.e_remaining := by
  have hn : normalise (some "latecup") = "latecup" := by decide
  refine ⟨?_, by norm_num [c5rec], by norm_num [c5rec, c5res], by norm_num [c5res],
    by norm_num [c5rec, c5res]⟩
  norm_num [maybeEntry2, c5rec, c5res, hn, truthyInt, Option.some_ne_none,
    LTD60_MAX_SECOND_ENTRY_ODDS, STAKE_LTD_PAPER, LTD60_SECOND_ENTRY_TIME]

/-- C6 (counterexample): a row in a late-goal league, scoreless at minute 61,
with `e_ordered` unset satisfies every other entry-2 gate — and
`_maybe_entry2` returns without placing anything (the row is unchanged, no
action is sent, no entry recorded), because `if ev.get('e_ordered'):` falls to
its `else: return` when no entry 1 exists. -/
theorem C6_counterexample :
    c6rec.e_ordered = none ∧
    normalise c6rec.comp ∈ ["latecup"] ∧
    c6rec.h_score = some 0 ∧ c6rec.a_score = some 0 ∧ c6rec.time_elapsed = some 61 ∧
    maybeEntry2 true ["latecup"] (some (11 / 5)) (ApiResult.ok "S" none 0) "M" c6rec
      = Except.ok (c6rec, [], false) := by
  decide

/-- C9 (counterexample): a `sqlite3.OperationalError` whose message does not
contain "database is locked" (for example "disk I/O error") hits the bare
`raise` in `_run_matchfinder_job`: the exception propagates out of the job
function (and `_scheduler_loop` has no handler, so the scheduler thread
would die), instead of being logged and abandoned. -/
theorem C9_counterexample :
    runMatchfinderJob c9diskErr = (JobResult.raised "disk I/O error", []) := by
  decide

/-- C9 (amended): locked-database errors are retried for at most five
attempts with linearly increasing backoff (`0.5 × attempt` seconds); a
non-lock `OperationalError` is re-raised out of the job function; any other
exception is logged and the run abandoned. -/
theorem C9_scheduler_retry_amended :
    (∀ f : Nat → AttemptRes,
      (∀ i, 1 ≤ i → i ≤ 5 → ∃ m, f i = .opErr m ∧ lockedCheck m = true) →
      runMatchfinderJob f = (.exhausted, [1/2, 1, 3/2, 2, 5/2])) ∧
    (∀ f : Nat → AttemptRes, f 1 = .exc → runMatchfinderJob f = (.abandoned, [])) ∧
    (∀ (f : Nat → AttemptRes) m, f 1 = .opErr m → lockedCheck m = false →
      runMatchfinderJob f = (.raised m, [])) := by
  refine ⟨?_, ?_, ?_⟩
  · intro f h
    obtain ⟨m1, e1, l1⟩ := h 1 (by norm_num) (by norm_num)
    obtain ⟨m2, e2, l2⟩ := h 2 (by norm_num) (by norm_num)
    obtain ⟨m3, e3, l3⟩ := h 3 (by norm_num) (by norm_num)
    obtain ⟨m4, e4, l4⟩ := h 4 (by norm_num) (by norm_num)
    obtain ⟨m5, e5, l5⟩ := h 5 (by norm_num) (by norm_num)
    simp only [runMatchfinderJob, runJobAux, e1, e2, e3, e4, e5, l1, l2, l3, l4, l5,
      if_true]
    norm_num
  · intro f h
    simp only [runMatchfinderJob, runJobAux, h]
  · intro f m h hl
    simp only [runMatchfinderJob, runJobAux, h, hl]
    norm_num

/-- C9 (witness): five consecutive locked-database errors exhaust the retry
bound with backoffs 0.5, 1.0, 1.5, 2.0, 2.5 seconds. -/
theorem C9_scheduler_retry_amended_witness :
    runMatchfinderJob c9locked = (.exhausted, [1/2, 1, 3/2, 2, 5/2]) ∧
    runMatchfinderJob c9generic = (.abandoned, []) := by
  exact ⟨C9_scheduler_retry_amended.1 c9locked
          (fun i _ _ => ⟨"database is locked", rfl, by decide⟩),
         C9_scheduler_retry_amended.2.1 c9generic rfl⟩

/-- C1 (amended): entry-1 cancellation is vetoed by any positive `e_matched`;
entry-2 cancellation is vetoed only when `e_matched` exceeds half the
accumulated `e_stake` — the code's proxy for entry 2's own matched amount,
which subtracts entry 1's *stake* rather than entry 1's *matched* amount.
In both cases the veto leaves the row unchanged and sends no instruction. -/
theorem C1_cancel_guard_amended :
    (∀ (paper apiAvail : Bool) (ack : AckResult) (mid : String) (te hs as : Option Int)
       (ev : MatchRec), ev.e_matched.getD 0 > 0 →
       maybeCancelEntry1 paper apiAvail ack mid te hs as ev = (ev, [])) ∧
    (∀ (paper apiAvail : Bool) (ack : AckResult) (mid : String) (te hs as : Option Int)
       (ev : MatchRec), ev.e_matched.getD 0 - ev.e_stake.getD 0 / 2 > 0 →
       maybeCancelEntry2 paper apiAvail ack mid te hs as ev = (ev, [])) := by
  constructor
  · intro paper apiAvail ack mid te hs as ev h
    rcases hp : ev.e_price with _ | p <;>
      simp only [maybeCancelEntry1, hp] <;>
      split_ifs <;> simp_all
  · intro paper apiAvail ack mid te hs as ev h
    rcases hp : ev.e_price with _ | p <;>
      simp only [maybeCancelEntry2, hp] <;>
      split_ifs <;> simp_all

/-- C1 (witness): on a row with `e_matched = 7` and `e_stake = 8`, both
cancellation operations leave the row untouched and send nothing. -/
theorem C1_cancel_guard_amended_witness :
    maybeCancelEntry1 true true AckResult.ok "M" (some 90) (some 0) (some 0) c1vetoRec
      = (c1vetoRec, []) ∧
    maybeCancelEntry2 true true AckResult.ok "M" (some 90) (some 0) (some 0) c1vetoRec
      = (c1vetoRec, []) :=
  ⟨C1_cancel_guard_amended.1 true true AckResult.ok "M" (some 90) (some 0) (some 0)
     c1vetoRec (by norm_num [c1vetoRec]),
   C1_cancel_guard_amended.2 true true AckResult.ok "M" (some 90) (some 0) (some 0)
     c1vetoRec (by norm_num [c1vetoRec])⟩

/-- C6 (amended): entry-2 placement gates on league membership, a scoreless
draw, elapsed time past the second-entry threshold *and* on `e_ordered` being
set: with `e_ordered` unset (or 0) the method returns without placing, while
with `e_ordered = 1` and the three other gates satisfied a second (paper)
entry is recorded. -/
theorem C6_entry2_requires_entry1 :
    (∀ (paper : Bool) (lg : List String) (d : Option ℚ) (resp : ApiResult) (mid : String)
       (ev : MatchRec), ev.e_ordered = none ∨ ev.e_ordered = some 0 →
       maybeEntry2 paper lg d resp mid ev = .ok (ev, [], false)) ∧
    (∀ (lg : List String) (dp : ℚ) (resp : ApiResult) (mid : String) (ev : MatchRec)
       (t : Int), normalise ev.comp ∈ lg → ev.e_ordered = some 1 →
       ev.h_score.getD 0 = 0 → ev.a_score.getD 0 = 0 →
       ev.time_elapsed = some t → t ≠ 0 → t > LTD60_SECOND_ENTRY_TIME →
       ∃ r : MatchRec, maybeEntry2 true lg (some dp) resp mid ev = .ok (r, [], true) ∧
         r.e_ordered = some 2) := by
  constructor
  · intro paper lg d resp mid ev h
    rcases h with h | h <;> simp [maybeEntry2, truthyInt, h]
  · intro lg dp resp mid ev t hmem hord hh ha ht ht0 ht60
    simp only [maybeEntry2, hmem, hord, truthyInt, hh, ha, ht, ht0, ht60]
    norm_num [Option.some_ne_none]

/-- C6 (witness): the no-entry-1 clause at the concrete row `c6rec`. -/
theorem C6_entry2_requires_entry1_witness :
    maybeEntry2 true ["latecup"] (some (11 / 5)) (ApiResult.ok "S" none 0) "M" c6rec
      = .ok (c6rec, [], false) :=
  C6_entry2_requires_entry1.1 true ["latecup"] (some (11 / 5)) (ApiResult.ok "S" none 0)
    "M" c6rec (Or.inl rfl)

/-- C10: when the league, entry-1, scoreless-draw and time gates all pass but
the draw price is absent, `_maybe_entry2` raises `TypeError` at the
price-capping comparison (`None > LTD60_MAX_SECOND_ENTRY_ODDS`) before the
`if d_price is None: return` guard is reached, so it never returns cleanly
with an absent price. -/
theorem C10_missing_price_type_error (paper : Bool) (lg : List String) (resp : ApiResult)
    (mid : String) (ev : MatchRec) (t : Int)
    (hmem : normalise ev.comp ∈ lg) (hord : ev.e_ordered = some 1)
    (hh : ev.h_score.getD 0 = 0) (ha : ev.a_score.getD 0 = 0)
    (ht : ev.time_elapsed = some t) (ht0 : t ≠ 0) (ht60 : t > LTD60_SECOND_ENTRY_TIME) :
    maybeEntry2 paper lg none resp mid ev = .error .typeError := by
  simp [maybeEntry2, hmem, hord, truthyInt, hh, ha, ht, ht0, ht60]

/-- C10 (witness): the TypeError at the concrete row `c5rec`. -/
theorem C10_missing_price_type_error_witness :
    maybeEntry2 true ["latecup"] none (ApiResult.ok "S" none 0) "M" c5rec
      = .error .typeError :=
  C10_missing_price_type_error true ["latecup"] (ApiResult.ok "S" none 0) "M" c5rec 61
    (by decide) rfl (by decide) (by decide) rfl (by decide) (by decide)

/-- C4: in paper mode, an entry-1 placement records entry price
`min(live_draw_price, LTD60_MAX_ODDS_ACCEPT)`; at or above the cap it is
recorded unmatched with zero liability and the full stake remaining, below
the cap fully matched with liability `(price − 1) × stake` and zero
remaining.  (Draw prices are decimal odds, hence ≥ 1.) -/
theorem C4_entry1_paper (dp : ℚ) (mk : Option ℚ) (resp : ApiResult) (mid : String)
    (ev : MatchRec) (r : MatchRec)
    (hord : ¬ truthyInt ev.e_ordered)
    (hko : ∀ x, mk = some x → x ≤ LTD60_KO_WINDOW_MINUTES)
    (hd1 : 1 ≤ dp)
    (hr : (maybeEntry1 true (some dp) mk resp mid ev).1 = r) :
    r.e_price = some (min dp LTD60_MAX_ODDS_ACCEPT) ∧
    r.e_status = some "PAPER_EXECUTED" ∧ r.e_stake = some STAKE_LTD_PAPER ∧
    (LTD60_MAX_ODDS_ACCEPT ≤ dp →
      r.e_matched = some 0 ∧ r.liability = some 0 ∧
      r.e_remaining = some STAKE_LTD_PAPER) ∧
    (dp < LTD60_MAX_ODDS_ACCEPT →
      r.e_matched = some STAKE_LTD_PAPER ∧ r.e_remaining = some 0 ∧
      r.liability = some ((min dp LTD60_MAX_ODDS_ACCEPT - 1) * STAKE_LTD_PAPER)) := by
  subst hr
  have hko' : koWindowBlocked mk = false := by
    rcases hmk : mk with _ | x
    · rfl
    · simpa [koWindowBlocked] using not_lt.mpr (hko x hmk)
  have hd0 : ¬ dp ≤ 0 := by linarith
  rcases lt_trichotomy dp LTD60_MAX_ODDS_ACCEPT with hlt | heq | hgt
  · -- below the cap: full match
    have h1 : ¬ dp > LTD60_MAX_ODDS_ACCEPT := by linarith
    have h2 : ¬ dp ≥ LTD60_MAX_ODDS_ACCEPT := by linarith
    have hmax : max 0 ((dp - 1) * STAKE_LTD_PAPER) = (dp - 1) * STAKE_LTD_PAPER :=
      max_eq_right (mul_nonneg (by linarith) (by norm_num [STAKE_LTD_PAPER]))
    have hred : (maybeEntry1 true (some dp) mk resp mid ev).1
        = { ev with e_ordered := some 1, e_price := some dp,
                    e_stake := some STAKE_LTD_PAPER, e_matched := some STAKE_LTD_PAPER,
                    e_remaining := some 0, e_status := some "PAPER_EXECUTED",
                    e_betid := none,
                    liability := some (max 0 ((dp - 1) * STAKE_LTD_PAPER)) } := by
      simp only [maybeEntry1, orderSnapshot, hord, hko', hd0, h1, h2,
        Bool.false_eq_true, if_false, ite_false, if_true, ite_true]
    rw [hred]
    refine ⟨?_, rfl, rfl, ?_, ?_⟩
    · rw [min_eq_left (le_of_lt hlt)]
    · intro hc; exact absurd hc h2
    · intro _
      refine ⟨rfl, rfl, ?_⟩
      rw [hmax, min_eq_left (le_of_lt hlt)]
  · -- exactly at the cap: recorded unmatched
    have h1 : ¬ dp > LTD60_MAX_ODDS_ACCEPT := by rw [heq]; exact lt_irrefl _
    have h2 : dp ≥ LTD60_MAX_ODDS_ACCEPT := heq.ge
    have hred : (maybeEntry1 true (some dp) mk resp mid ev).1
        = { ev with e_ordered := some 1, e_price := some dp,
                    e_stake := some STAKE_LTD_PAPER, e_matched := some 0,
                    e_remaining := some STAKE_LTD_PAPER,
                    e_status := some "PAPER_EXECUTED", e_betid := none,
                    liability := some 0 } := by
      simp only [maybeEntry1, orderSnapshot, hord, hko', hd0, h1, h2, le_refl,
        ge_iff_le, Bool.false_eq_true, if_false, ite_false, if_true, ite_true]
    rw [hred]
    exact ⟨by rw [min_eq_left heq.le], rfl, rfl, fun _ => ⟨rfl, rfl, rfl⟩,
      fun hc => absurd hc (by rw [heq]; exact lt_irrefl _)⟩
  · -- above the cap: capped and recorded unmatched
    have h2 : LTD60_MAX_ODDS_ACCEPT ≤ LTD60_MAX_ODDS_ACCEPT := le_refl _
    have hred : (maybeEntry1 true (some dp) mk resp mid ev).1
        = { ev with e_ordered := some 1, e_price := some LTD60_MAX_ODDS_ACCEPT,
                    e_stake := some STAKE_LTD_PAPER, e_matched := some 0,
                    e_remaining := some STAKE_LTD_PAPER,
                    e_status := some "PAPER_EXECUTED", e_betid := none,
                    liability := some 0 } := by
      simp only [maybeEntry1, orderSnapshot, hord, hko', hd0, hgt, h2, le_refl,
        ge_iff_le, Bool.false_eq_true, if_false, ite_false, if_true, ite_true]
    rw [hred]
    exact ⟨by rw [min_eq_right (le_of_lt hgt)], rfl, rfl, fun _ => ⟨rfl, rfl, rfl⟩,
      fun hc => absurd hc (by linarith)⟩

/-- C4 (witness): Scenario B — draw price 9.0 at kickoff fires entry 1 at the
capped price 4.5 with zero matched, zero liability and the full paper stake
remaining. -/
theorem C4_entry1_paper_witness :
    ((maybeEntry1 true (some 9) (some 1) (ApiResult.ok "S" none 0) "M" evC4).1).e_price
      = some (min 9 LTD60_MAX_ODDS_ACCEPT) ∧
    ((maybeEntry1 true (some 9) (some 1) (ApiResult.ok "S" none 0) "M" evC4).1).e_matched
      = some 0 ∧
    ((maybeEntry1 true (some 9) (some 1) (ApiResult.ok "S" none 0) "M" evC4).1).liability
      = some 0 ∧
    ((maybeEntry1 true (some 9) (some 1) (ApiResult.ok "S" none 0) "M" evC4).1).e_remaining
      = some STAKE_LTD_PAPER := by
  have h := C4_entry1_paper 9 (some 1) (ApiResult.ok "S" none 0) "M" evC4 _
    (by decide)
    (by intro x hx; injection hx with hx; rw [← hx]; norm_num [LTD60_KO_WINDOW_MINUTES])
    (by norm_num) rfl
  have hc : LTD60_MAX_ODDS_ACCEPT ≤ (9 : ℚ) := by norm_num [LTD60_MAX_ODDS_ACCEPT]
  exact ⟨h.1, (h.2.2.2.1 hc).1, (h.2.2.2.1 hc).2.1, (h.2.2.2.1 hc).2.2⟩

/-- C5 (amended): a paper entry-2 placement accumulates stake, matched and
liability onto entry 1's totals, but `e_remaining` accumulates only in the
capped branch (price ≥ `LTD60_MAX_SECOND_ENTRY_ODDS`); in the fully-matched
branch `e_remaining` is set to zero, replacing entry 1's remaining rather
than accumulating onto it. -/
theorem C5_entry2_accumulate_amended (lg : List String) (dp : ℚ) (resp : ApiResult)
    (mid : String) (ev : MatchRec) (t : Int) (r : MatchRec)
    (hmem : normalise ev.comp ∈ lg) (hord : ev.e_ordered = some 1)
    (hh : ev.h_score.getD 0 = 0) (ha : ev.a_score.getD 0 = 0)
    (ht : ev.time_elapsed = some t) (ht0 : t ≠ 0) (ht60 : t > LTD60_SECOND_ENTRY_TIME)
    (hd1 : 1 ≤ dp)
    (hr : maybeEntry2 true lg (some dp) resp mid ev = .ok (r, [], true)) :
    r.e_stake = some (ev.e_stake.getD 0 + STAKE_LTD_PAPER) ∧
    (LTD60_MAX_SECOND_ENTRY_ODDS ≤ dp →
      r.e_matched = some (ev.e_matched.getD 0) ∧
      r.liability = some (ev.liability.getD 0) ∧
      r.e_remaining = some (ev.e_remaining.getD 0 + STAKE_LTD_PAPER)) ∧
    (dp < LTD60_MAX_SECOND_ENTRY_ODDS →
      r.e_matched = some (ev.e_matched.getD 0 + STAKE_LTD_PAPER) ∧
      r.liability = some (ev.liability.getD 0 + (dp - 1) * STAKE_LTD_PAPER) ∧
      r.e_remaining = some 0) := by
  rcases le_or_lt LTD60_MAX_SECOND_ENTRY_ODDS dp with hc | hc
  · -- capped second entry: everything accumulates
    have hred : maybeEntry2 true lg (some dp) resp mid ev
        = .ok ({ ev with e_ordered := some 2,
                         e_stake := some (ev.e_stake.getD 0 + STAKE_LTD_PAPER),
                         e_status := some "PAPER_SECOND",
                         e_matched := some (ev.e_matched.getD 0),
                         e_remaining := some (ev.e_remaining.getD 0 + STAKE_LTD_PAPER),
                         liability := some (ev.liability.getD 0) }, [], true) := by
      simp only [maybeEntry2, hmem, hord, truthyInt, hh, ha, ht, ht0, ht60,
        Option.some_ne_none, if_false, ite_false, if_true, ite_true]
      split_ifs <;> first | rfl | simp_all
    rw [hred] at hr
    simp only [Except.ok.injEq, Prod.mk.injEq, and_true] at hr
    rw [← hr]
    exact ⟨rfl, fun _ => ⟨rfl, rfl, rfl⟩, fun hlt => absurd hc (not_le.mpr hlt)⟩
  · -- fully matched second entry: remaining is replaced by zero
    have h1 : ¬ dp > LTD60_MAX_SECOND_ENTRY_ODDS := by linarith
    have h2 : ¬ dp ≥ LTD60_MAX_SECOND_ENTRY_ODDS := by linarith
    have hred : maybeEntry2 true lg (some dp) resp mid ev
        = .ok ({ ev with e_ordered := some 2,
                         e_stake := some (ev.e_stake.getD 0 + STAKE_LTD_PAPER),
                         e_status := some "PAPER_SECOND",
                         e_matched := some (ev.e_matched.getD 0 + STAKE_LTD_PAPER),
                         e_remaining := some 0,
                         liability := some (ev.liability.getD 0 +
                           max 0 ((dp - 1) * STAKE_LTD_PAPER)) }, [], true) := by
      simp only [maybeEntry2, hmem, hord, truthyInt, hh, ha, ht, ht0, ht60,
        Option.some_ne_none, if_false, ite_false, if_true, ite_true]
      split_ifs <;> first | rfl | simp_all
    have hmax : max 0 ((dp - 1) * STAKE_LTD_PAPER) = (dp - 1) * STAKE_LTD_PAPER :=
      max_eq_right (mul_nonneg (by linarith) (by norm_num [STAKE_LTD_PAPER]))
    rw [hred] at hr
    simp only [Except.ok.injEq, Prod.mk.injEq, and_true] at hr
    rw [← hr]
    exact ⟨rfl, fun hge => absurd hge h2, fun _ => ⟨rfl, by rw [hmax], rfl⟩⟩

/-- C5 (witness): a capped second entry (draw price 3.0 ≥ 2.5) on `c5rec`
accumulates both the stake and the remaining size. -/
theorem C5_entry2_accumulate_amended_witness :
    c5capRes.e_stake = some (c5rec.e_stake.getD 0 + STAKE_LTD_PAPER) ∧
    c5capRes.e_remaining = some (c5rec.e_remaining.getD 0 + STAKE_LTD_PAPER) := by
  have hr : maybeEntry2 true ["latecup"] (some 3) (ApiResult.ok "S" none 0) "M" c5rec
      = .ok (c5capRes, [], true) := by
    have hn : normalise (some "latecup") = "latecup" := by decide
    norm_num [maybeEntry2, c5rec, c5capRes, hn, truthyInt, Option.some_ne_none,
      LTD60_MAX_SECOND_ENTRY_ODDS, STAKE_LTD_PAPER, LTD60_SECOND_ENTRY_TIME]
  have h := C5_entry2_accumulate_amended ["latecup"] 3 (ApiResult.ok "S" none 0) "M"
    c5rec 61 c5capRes (by decide) rfl (by decide) (by decide) rfl (by decide) (by decide)
    (by norm_num) hr
  exact ⟨h.1, (h.2.1 (by norm_num [LTD60_MAX_SECOND_ENTRY_ODDS])).2.2⟩

/-- C7: forced finish — for a match with a known kickoff, a non-terminal
status, wall-clock age past the 4-hour finish timeout, and an effective final
score (last-known `ft_score`, else the live scores) that parses as `x-y`,
`decide_to_archive` writes `inplay_status = "Finished"`, the synthesized
`ft_score`, `result` (1 iff decisive), and the strategy PnL, and archives the
row with exactly those values. -/
theorem C7_forced_finish (now k : Int) (ev : MatchRec) (f : String) (x y : Int)
    (hk : ev.kickoff = some k)
    (hst : notTerminal ev.inplay_status)
    (hage : now - k > 4 * 3600)
    (hft : pyOrStr ev.ft_score (liveFt ev) = some f)
    (hne : f ≠ "")
    (hp : parseFt (some f) = (some x, some y)) :
    (decideToArchive now ev).archived
      = some { ev with inplay_status := some "Finished", ft_score := some f,
                       result := some (if x ≠ y then 1 else 0),
                       pnl := calculatePnl ev (some (if x ≠ y then 1 else 0)) } := by
  have hfin : ¬ ev.inplay_status = some "Finished" := hst.1
  have hie : f.isEmpty = false := by
    by_contra hcon
    have hie' : f.isEmpty = true := by revert hcon; cases f.isEmpty <;> simp
    exact hne ((String.isEmpty_iff f).mp hie')
  have htr : truthyStr (some f) = true := by simp [truthyStr, hie]
  simp only [decideToArchive, hk, hfin, hst, hage, hft, htr, hp, computeResult,
    false_and, if_false, ite_false, if_true, ite_true, and_true, true_and,
    Option.getD_some]

/-- C7 (witness): Scenario D — status stuck at "InPlay", age 20000 s past
kickoff, last-known score 2–1: the row is archived with
`ft_score = "2-1"`, `result = 1`, `inplay_status = "Finished"` and a PnL. -/
theorem C7_forced_finish_witness :
    (decideToArchive 20000 evC7).archived
      = some { evC7 with inplay_status := some "Finished", ft_score := some "2-1",
                         result := some 1, pnl := some 0 } := by
  have h := C7_forced_finish 20000 0 evC7 "2-1" 2 1 rfl (by decide) (by decide)
    (by decide) (by decide) (by decide)
  simpa [calculatePnl, evC7] using h

/-- The in-band write never nulls a populated band field. -/
theorem inBandWrite_nonnull (t? h? a? : Option Int) (ev : MatchRec) :
    (ev.h_goals15 ≠ none → (inBandWrite t? h? a? ev).h_goals15 ≠ none) ∧
    (ev.a_goals15 ≠ none → (inBandWrite t? h? a? ev).a_goals15 ≠ none) ∧
    (ev.h_goals30 ≠ none → (inBandWrite t? h? a? ev).h_goals30 ≠ none) ∧
    (ev.a_goals30 ≠ none → (inBandWrite t? h? a? ev).a_goals30 ≠ none) ∧
    (ev.h_goals45 ≠ none → (inBandWrite t? h? a? ev).h_goals45 ≠ none) ∧
    (ev.a_goals45 ≠ none → (inBandWrite t? h? a? ev).a_goals45 ≠ none) ∧
    (ev.h_goals60 ≠ none → (inBandWrite t? h? a? ev).h_goals60 ≠ none) ∧
    (ev.a_goals60 ≠ none → (inBandWrite t? h? a? ev).a_goals60 ≠ none) ∧
    (ev.h_goals75 ≠ none → (inBandWrite t? h? a? ev).h_goals75 ≠ none) ∧
    (ev.a_goals75 ≠ none → (inBandWrite t? h? a? ev).a_goals75 ≠ none) ∧
    (ev.h_goals90 ≠ none → (inBandWrite t? h? a? ev).h_goals90 ≠ none) ∧
    (ev.a_goals90 ≠ none → (inBandWrite t? h? a? ev).a_goals90 ≠ none) := by
  unfold inBandWrite
  rcases t? with _ | t <;> rcases h? with _ | h <;> rcases a? with _ | a <;>
    try (exact ⟨id, id, id, id, id, id, id, id, id, id, id, id⟩)
  dsimp only
  split_ifs <;>
    simp [setBand15, setBand30, setBand45, setBand60, setBand75, setBand90]

/-- The sequential Finished-backfill writes of the six band pairs, as one
record: each pair is overwritten with the final score exactly when it was
null at entry. -/
theorem backfillChain_eq (fx fy : Int) (ev1 : MatchRec)
    (c15 c30 c45 c60 c75 c90 : Prop)
    [Decidable c15] [Decidable c30] [Decidable c45]
    [Decidable c60] [Decidable c75] [Decidable c90] :
    (let e2 := if c15 then setBand15 fx fy ev1 else ev1
     let e3 := if c30 then setBand30 fx fy e2 else e2
     let e4 := if c45 then setBand45 fx fy e3 else e3
     let e5 := if c60 then setBand60 fx fy e4 else e4
     let e6 := if c75 then setBand75 fx fy e5 else e5
     if c90 then setBand90 fx fy e6 else e6)
    = { ev1 with
        h_goals15 := if c15 then some fx else ev1.h_goals15
        a_goals15 := if c15 then some fy else ev1.a_goals15
        h_goals30 := if c30 then some fx else ev1.h_goals30
        a_goals30 := if c30 then some fy else ev1.a_goals30
        h_goals45 := if c45 then some fx else ev1.h_goals45
        a_goals45 := if c45 then some fy else ev1.a_goals45
        h_goals60 := if c60 then some fx else ev1.h_goals60
        a_goals60 := if c60 then some fy else ev1.a_goals60
        h_goals75 := if c75 then some fx else ev1.h_goals75
        a_goals75 := if c75 then some fy else ev1.a_goals75
        h_goals90 := if c90 then some fx else ev1.h_goals90
        a_goals90 := if c90 then some fy else ev1.a_goals90 } := by
  split_ifs <;>
    simp [setBand15, setBand30, setBand45, setBand60, setBand75, setBand90]

/-- C3 (amended): the Finished backfill of `_update_goal_timeline` does
guarantee band coverage *when it runs*: called with `inplay_status =
"Finished"`, a derivable final score, and pairwise-consistent stored bands,
it leaves every band pair non-null.  (Forced-finish archival never invokes
this backfill — see the counterexample.) -/
theorem C3_backfill_amended (ev : MatchRec) (t? h? a? : Option Int) (ft : Option String)
    (x y : Int)
    (hfin : finalFtPair ft h? a? = some (x, y))
    (hc : bandsConsistent ev) :
    allBandsSet (updateGoalTimeline ev t? (some "Finished") h? a? ft) := by
  obtain ⟨h15, h30, h45, h60, h75, h90⟩ := hc
  obtain ⟨k15h, k15a, k30h, k30a, k45h, k45a, k60h, k60a, k75h, k75a, k90h, k90a⟩ :=
    inBandWrite_nonnull t? h? a? ev
  simp only [updateGoalTimeline, hfin, eq_self_iff_true, ite_true]
  try dsimp only
  rw [backfillChain_eq]
  refine ⟨?_, ?_, ?_, ?_, ?_, ?_, ?_, ?_, ?_, ?_, ?_, ?_⟩ <;> dsimp only
  · by_cases cb : ev.h_goals15 = none ∧ ev.a_goals15 = none
    · simp [cb]
    · simp only [if_neg cb]; exact k15h (fun hh => cb ⟨hh, h15.mp hh⟩)
  · by_cases cb : ev.h_goals15 = none ∧ ev.a_goals15 = none
    · simp [cb]
    · simp only [if_neg cb]; exact k15a (fun ha2 => cb ⟨h15.mpr ha2, ha2⟩)
  · by_cases cb : ev.h_goals30 = none ∧ ev.a_goals30 = none
    · simp [cb]
    · simp only [if_neg cb]; exact k30h (fun hh => cb ⟨hh, h30.mp hh⟩)
  · by_cases cb : ev.h_goals30 = none ∧ ev.a_goals30 = none
    · simp [cb]
    · simp only [if_neg cb]; exact k30a (fun ha2 => cb ⟨h30.mpr ha2, ha2⟩)
  · by_cases cb : ev.h_goals45 = none ∧ ev.a_goals45 = none
    · simp [cb]
    · simp only [if_neg cb]; exact k45h (fun hh => cb ⟨hh, h45.mp hh⟩)
  · by_cases cb : ev.h_goals45 = none ∧ ev.a_goals45 = none
    · simp [cb]
    · simp only [if_neg cb]; exact k45a (fun ha2 => cb ⟨h45.mpr ha2, ha2⟩)
  · by_cases cb : ev.h_goals60 = none ∧ ev.a_goals60 = none
    · simp [cb]
    · simp only [if_neg cb]; exact k60h (fun hh => cb ⟨hh, h60.mp hh⟩)
  · by_cases cb : ev.h_goals60 = none ∧ ev.a_goals60 = none
    · simp [cb]
    · simp only [if_neg cb]; exact k60a (fun ha2 => cb ⟨h60.mpr ha2, ha2⟩)
  · by_cases cb : ev.h_goals75 = none ∧ ev.a_goals75 = none
    · simp [cb]
    · simp only [if_neg cb]; exact k75h (fun hh => cb ⟨hh, h75.mp hh⟩)
  · by_cases cb : ev.h_goals75 = none ∧ ev.a_goals75 = none
    · simp [cb]
    · simp only [if_neg cb]; exact k75a (fun ha2 => cb ⟨h75.mpr ha2, ha2⟩)
  · by_cases cb : ev.h_goals90 = none ∧ ev.a_goals90 = none
    · simp [cb]
    · simp only [if_neg cb]; exact k90h (fun hh => cb ⟨hh, h90.mp hh⟩)
  · by_cases cb : ev.h_goals90 = none ∧ ev.a_goals90 = none
    · simp [cb]
    · simp only [if_neg cb]; exact k90a (fun ha2 => cb ⟨h90.mpr ha2, ha2⟩)

/-- C3 (witness): with only the 15' band captured, a Finished tick with score
2–1 backfills the other five pairs, leaving all six populated. -/
theorem C3_backfill_amended_witness :
    allBandsSet (updateGoalTimeline evC3w (some 92) (some "Finished")
      (some 2) (some 1) (some "2-1")) :=
  C3_backfill_amended evC3w (some 92) (some 2) (some 1) (some "2-1") 2 1
    (by decide) (by decide)

/-- C3 (counterexample): `evC3` is archived (by forced finish) with *every*
goal-timeline band pair still null — `decide_to_archive` performs no
backfill, so an archived match need not have its six band pairs populated. -/
theorem C3_counterexample :
    (decideToArchive 20000 evC3).archived ≠ none ∧
    ((decideToArchive 20000 evC3).archived.getD {}).inplay_status = some "Finished" ∧
    ((decideToArchive 20000 evC3).archived.getD {}).h_goals15 = none ∧
    ((decideToArchive 20000 evC3).archived.getD {}).a_goals15 = none ∧
    ((decideToArchive 20000 evC3).archived.getD {}).h_goals30 = none ∧
    ((decideToArchive 20000 evC3).archived.getD {}).a_goals30 = none ∧
    ((decideToArchive 20000 evC3).archived.getD {}).h_goals45 = none ∧
    ((decideToArchive 20000 evC3).archived.getD {}).a_goals45 = none ∧
    ((decideToArchive 20000 evC3).archived.getD {}).h_goals60 = none ∧
    ((decideToArchive 20000 evC3).archived.getD {}).a_goals60 = none ∧
    ((decideToArchive 20000 evC3).archived.getD {}).h_goals75 = none ∧
    ((decideToArchive 20000 evC3).archived.getD {}).a_goals75 = none ∧
    ((decideToArchive 20000 evC3).archived.getD {}).h_goals90 = none ∧
    ((decideToArchive 20000 evC3).archived.getD {}).a_goals90 = none := by
  decide

/-- The in-band goal write touches only goal-band fields. -/
theorem inBandWrite_keeps (t? h? a? : Option Int) (ev : MatchRec) :
    (inBandWrite t? h? a? ev).h_SP = ev.h_SP ∧
    (inBandWrite t? h? a? ev).a_SP = ev.a_SP ∧
    (inBandWrite t? h? a? ev).d_SP = ev.d_SP ∧
    (inBandWrite t? h? a? ev).fav = ev.fav ∧
    (inBandWrite t? h? a? ev).kickoff = ev.kickoff := by
  unfold inBandWrite
  rcases t? with _ | t <;> rcases h? with _ | h <;> rcases a? with _ | a <;>
    try (exact ⟨rfl, rfl, rfl, rfl, rfl⟩)
  dsimp only
  split_ifs <;>
    simp [setBand15, setBand30, setBand45, setBand60, setBand75, setBand90]

/-- The goal-timeline updater touches only goal-band fields: the SP snapshot,
favourite and kickoff are untouched. -/
theorem goalTimeline_keeps (ev : MatchRec) (t? : Option Int) (ip : Option String)
    (h? a? : Option Int) (ft : Option String) :
    (updateGoalTimeline ev t? ip h? a? ft).h_SP = ev.h_SP ∧
    (updateGoalTimeline ev t? ip h? a? ft).a_SP = ev.a_SP ∧
    (updateGoalTimeline ev t? ip h? a? ft).d_SP = ev.d_SP ∧
    (updateGoalTimeline ev t? ip h? a? ft).fav = ev.fav ∧
    (updateGoalTimeline ev t? ip h? a? ft).kickoff = ev.kickoff := by
  obtain ⟨i1, i2, i3, i4, i5⟩ := inBandWrite_keeps t? h? a? ev
  by_cases hip : ip = some "Finished"
  · simp only [updateGoalTimeline, hip, eq_self_iff_true, ite_true]
    rcases hf : finalFtPair ft h? a? with _ | ⟨fx, fy⟩
    · exact ⟨i1, i2, i3, i4, i5⟩
    · try dsimp only
      rw [backfillChain_eq]
      exact ⟨i1, i2, i3, i4, i5⟩
  · simp only [updateGoalTimeline, hip, if_false, ite_false]
    exact ⟨i1, i2, i3, i4, i5⟩

/-- The SP capture writes `h_SP` only when it is null and a runner-0 back
price is available. -/
theorem spCapture_hSP (fb : Bool) (now : Int) (origTe : Option Int)
    (origIps : Option String) (b : BookData) (ev : MatchRec) :
    (spCapture fb now origTe origIps b ev).h_SP = ev.h_SP ∨
    (ev.h_SP = none ∧ (spCapture fb now origTe origIps b ev).h_SP = runnerBack b 0 ∧
      runnerBack b 0 ≠ none) := by
  unfold spCapture
  rcases he : effectiveHome b ev with _ | eh <;>
    rcases hz : effectiveAway b ev with _ | ea <;>
    simp only [he, hz] <;> split_ifs <;>
    first
      | exact Or.inl rfl
      | exact Or.inr ⟨(‹ev.h_SP = none ∧ runnerBack b 0 ≠ none›).1, rfl,
          (‹ev.h_SP = none ∧ runnerBack b 0 ≠ none›).2⟩

/-- The SP capture writes `a_SP` only when it is null and a runner-1 back
price is available. -/
theorem spCapture_aSP (fb : Bool) (now : Int) (origTe : Option Int)
    (origIps : Option String) (b : BookData) (ev : MatchRec) :
    (spCapture fb now origTe origIps b ev).a_SP = ev.a_SP ∨
    (ev.a_SP = none ∧ (spCapture fb now origTe origIps b ev).a_SP = runnerBack b 1 ∧
      runnerBack b 1 ≠ none) := by
  unfold spCapture
  rcases he : effectiveHome b ev with _ | eh <;>
    rcases hz : effectiveAway b ev with _ | ea <;>
    simp only [he, hz] <;> split_ifs <;>
    first
      | exact Or.inl rfl
      | exact Or.inr ⟨(‹ev.a_SP = none ∧ runnerBack b 1 ≠ none›).1, rfl,
          (‹ev.a_SP = none ∧ runnerBack b 1 ≠ none›).2⟩

/-- The SP capture writes `d_SP` only when it is null and a runner-2 back
price is available. -/
theorem spCapture_dSP (fb : Bool) (now : Int) (origTe : Option Int)
    (origIps : Option String) (b : BookData) (ev : MatchRec) :
    (spCapture fb now origTe origIps b ev).d_SP = ev.d_SP ∨
    (ev.d_SP = none ∧ (spCapture fb now origTe origIps b ev).d_SP = runnerBack b 2 ∧
      runnerBack b 2 ≠ none) := by
  unfold spCapture
  rcases he : effectiveHome b ev with _ | eh <;>
    rcases hz : effectiveAway b ev with _ | ea <;>
    simp only [he, hz] <;> split_ifs <;>
    first
      | exact Or.inl rfl
      | exact Or.inr ⟨(‹ev.d_SP = none ∧ runnerBack b 2 ≠ none›).1, rfl,
          (‹ev.d_SP = none ∧ runnerBack b 2 ≠ none›).2⟩

/-- The SP capture writes `fav` only when it is null and both effective
prices exist, and then by numeric comparison (lower price wins). -/
theorem spCapture_fav (fb : Bool) (now : Int) (origTe : Option Int)
    (origIps : Option String) (b : BookData) (ev : MatchRec) :
    (spCapture fb now origTe origIps b ev).fav = ev.fav ∨
    (ev.fav = none ∧ ∃ eh ea, effectiveHome b ev = some eh ∧
      effectiveAway b ev = some ea ∧
      (spCapture fb now origTe origIps b ev).fav = some (favCompare eh ea)) := by
  unfold spCapture
  rcases he : effectiveHome b ev with _ | eh <;>
    rcases hz : effectiveAway b ev with _ | ea <;>
    simp only [he, hz] <;> split_ifs <;>
    first
      | exact Or.inl rfl
      | exact Or.inr ⟨‹ev.fav = none›, eh, ea, rfl, rfl, rfl⟩

/-- The SP/favourite clauses for the capture stage, transported from the
freshly fetched row (`priceUpd b ev1`) back to the caller's row `ev`. -/
theorem spClauses_aux (fb : Bool) (now : Int) (origTe : Option Int)
    (origIps : Option String) (b : BookData) (ev ev1 : MatchRec)
    (e1 : ev1.h_SP = ev.h_SP) (e2 : ev1.a_SP = ev.a_SP)
    (e3 : ev1.d_SP = ev.d_SP) (e4 : ev1.fav = ev.fav) :
    ((spCapture fb now origTe origIps b (priceUpd b ev1)).h_SP = ev.h_SP ∨
      (ev.h_SP = none ∧
       (spCapture fb now origTe origIps b (priceUpd b ev1)).h_SP = runnerBack b 0 ∧
       runnerBack b 0 ≠ none)) ∧
    ((spCapture fb now origTe origIps b (priceUpd b ev1)).a_SP = ev.a_SP ∨
      (ev.a_SP = none ∧
       (spCapture fb now origTe origIps b (priceUpd b ev1)).a_SP = runnerBack b 1 ∧
       runnerBack b 1 ≠ none)) ∧
    ((spCapture fb now origTe origIps b (priceUpd b ev1)).d_SP = ev.d_SP ∨
      (ev.d_SP = none ∧
       (spCapture fb now origTe origIps b (priceUpd b ev1)).d_SP = runnerBack b 2 ∧
       runnerBack b 2 ≠ none)) ∧
    ((spCapture fb now origTe origIps b (priceUpd b ev1)).fav = ev.fav ∨
      (ev.fav = none ∧ ∃ eh ea, effectiveHome b ev = some eh ∧
       effectiveAway b ev = some ea ∧
       (spCapture fb now origTe origIps b (priceUpd b ev1)).fav
         = some (favCompare eh ea))) := by
  have p1 : (priceUpd b ev1).h_SP = ev.h_SP := by
    unfold priceUpd; split_ifs <;> exact e1
  have p2 : (priceUpd b ev1).a_SP = ev.a_SP := by
    unfold priceUpd; split_ifs <;> exact e2
  have p3 : (priceUpd b ev1).d_SP = ev.d_SP := by
    unfold priceUpd; split_ifs <;> exact e3
  have p4 : (priceUpd b ev1).fav = ev.fav := by
    unfold priceUpd; split_ifs <;> exact e4
  have heh : effectiveHome b (priceUpd b ev1) = effectiveHome b ev := by
    unfold effectiveHome; rw [p1]
  have hea : effectiveAway b (priceUpd b ev1) = effectiveAway b ev := by
    unfold effectiveAway; rw [p2]
  refine ⟨?_, ?_, ?_, ?_⟩
  · rcases spCapture_hSP fb now origTe origIps b (priceUpd b ev1) with h | ⟨hn, hw, hne⟩
    · exact Or.inl (h.trans p1)
    · exact Or.inr ⟨p1 ▸ hn, hw, hne⟩
  · rcases spCapture_aSP fb now origTe origIps b (priceUpd b ev1) with h | ⟨hn, hw, hne⟩
    · exact Or.inl (h.trans p2)
    · exact Or.inr ⟨p2 ▸ hn, hw, hne⟩
  · rcases spCapture_dSP fb now origTe origIps b (priceUpd b ev1) with h | ⟨hn, hw, hne⟩
    · exact Or.inl (h.trans p3)
    · exact Or.inr ⟨p3 ▸ hn, hw, hne⟩
  · rcases spCapture_fav fb now origTe origIps b (priceUpd b ev1)
      with h | ⟨hn, eh, ea, hh, ha, hv⟩
    · exact Or.inl (h.trans p4)
    · exact Or.inr ⟨p4 ▸ hn, eh, ea, heh ▸ hh, hea ▸ ha, hv⟩

/-- C8: the starting-price snapshot is write-once.  Across one
`_update_inplay_info` call: a non-null `h_SP`/`a_SP`/`d_SP`/`fav` is never
changed; each SP field is written only when it was null and the order book
supplied a live back price (home = runner 0, away = runner 1,
draw = runner 2); and `fav` is written only when it was null and both
effective prices (captured SP, else current snapshot) exist, by numeric
comparison — lower price is the favourite, 1 = home, 2 = away, 0 = equal. -/
theorem C8_sp_write_once (fb : Bool) (now : Int) (scores : Option ScoresData)
    (book : Option BookData) (ev : MatchRec) (r : MatchRec)
    (hr : updateInplayInfo fb now scores book ev = r) :
    (∀ v, ev.h_SP = some v → r.h_SP = some v) ∧
    (∀ v, ev.a_SP = some v → r.a_SP = some v) ∧
    (∀ v, ev.d_SP = some v → r.d_SP = some v) ∧
    (∀ v, ev.fav = some v → r.fav = some v) ∧
    (r.h_SP = ev.h_SP ∨ (ev.h_SP = none ∧ ∃ b, book = some b ∧
      r.h_SP = runnerBack b 0 ∧ runnerBack b 0 ≠ none)) ∧
    (r.a_SP = ev.a_SP ∨ (ev.a_SP = none ∧ ∃ b, book = some b ∧
      r.a_SP = runnerBack b 1 ∧ runnerBack b 1 ≠ none)) ∧
    (r.d_SP = ev.d_SP ∨ (ev.d_SP = none ∧ ∃ b, book = some b ∧
      r.d_SP = runnerBack b 2 ∧ runnerBack b 2 ≠ none)) ∧
    (r.fav = ev.fav ∨ (ev.fav = none ∧ ∃ b eh ea, book = some b ∧
      effectiveHome b ev = some eh ∧ effectiveAway b ev = some ea ∧
      r.fav = some (favCompare eh ea))) := by
  -- the only-null clauses imply the write-once clauses
  suffices H :
      (r.h_SP = ev.h_SP ∨ (ev.h_SP = none ∧ ∃ b, book = some b ∧
        r.h_SP = runnerBack b 0 ∧ runnerBack b 0 ≠ none)) ∧
      (r.a_SP = ev.a_SP ∨ (ev.a_SP = none ∧ ∃ b, book = some b ∧
        r.a_SP = runnerBack b 1 ∧ runnerBack b 1 ≠ none)) ∧
      (r.d_SP = ev.d_SP ∨ (ev.d_SP = none ∧ ∃ b, book = some b ∧
        r.d_SP = runnerBack b 2 ∧ runnerBack b 2 ≠ none)) ∧
      (r.fav = ev.fav ∨ (ev.fav = none ∧ ∃ b eh ea, book = some b ∧
        effectiveHome b ev = some eh ∧ effectiveAway b ev = some ea ∧
        r.fav = some (favCompare eh ea))) by
    obtain ⟨H1, H2, H3, H4⟩ := H
    refine ⟨?_, ?_, ?_, ?_, H1, H2, H3, H4⟩
    · intro v hv
      rcases H1 with h | ⟨hn, _⟩
      · rw [h, hv]
      · rw [hv] at hn; exact Option.noConfusion hn
    · intro v hv
      rcases H2 with h | ⟨hn, _⟩
      · rw [h, hv]
      · rw [hv] at hn; exact Option.noConfusion hn
    · intro v hv
      rcases H3 with h | ⟨hn, _⟩
      · rw [h, hv]
      · rw [hv] at hn; exact Option.noConfusion hn
    · intro v hv
      rcases H4 with h | ⟨hn, _⟩
      · rw [h, hv]
      · rw [hv] at hn; exact Option.noConfusion hn
  subst hr
  have keeps : ∀ s : ScoresData,
      (updateGoalTimeline (volatileUpd s ev) s.te s.status s.h s.a ev.ft_score).h_SP
        = ev.h_SP ∧
      (updateGoalTimeline (volatileUpd s ev) s.te s.status s.h s.a ev.ft_score).a_SP
        = ev.a_SP ∧
      (updateGoalTimeline (volatileUpd s ev) s.te s.status s.h s.a ev.ft_score).d_SP
        = ev.d_SP ∧
      (updateGoalTimeline (volatileUpd s ev) s.te s.status s.h s.a ev.ft_score).fav
        = ev.fav := by
    intro s
    obtain ⟨g1, g2, g3, g4, _⟩ :=
      goalTimeline_keeps (volatileUpd s ev) s.te s.status s.h s.a ev.ft_score
    exact ⟨g1, g2, g3, g4⟩
  unfold updateInplayInfo
  rcases scores with _ | s
  · by_cases hm : truthyStr ev.market_id
    · simp only [hm, not_true, if_false, ite_false, if_neg]
      rcases book with _ | b
      · exact ⟨Or.inl rfl, Or.inl rfl, Or.inl rfl, Or.inl rfl⟩
      · obtain ⟨q1, q2, q3, q4⟩ :=
          spClauses_aux fb now ev.time_elapsed ev.inplay_status b ev ev rfl rfl rfl rfl
        refine ⟨?_, ?_, ?_, ?_⟩
        · rcases q1 with h | ⟨hn, hw, hne⟩
          · exact Or.inl h
          · exact Or.inr ⟨hn, b, rfl, hw, hne⟩
        · rcases q2 with h | ⟨hn, hw, hne⟩
          · exact Or.inl h
          · exact Or.inr ⟨hn, b, rfl, hw, hne⟩
        · rcases q3 with h | ⟨hn, hw, hne⟩
          · exact Or.inl h
          · exact Or.inr ⟨hn, b, rfl, hw, hne⟩
        · rcases q4 with h | ⟨hn, eh, ea, hh, ha, hv⟩
          · exact Or.inl h
          · exact Or.inr ⟨hn, b, eh, ea, rfl, hh, ha, hv⟩
    · simp only [hm, not_false_iff, if_true, ite_true]
      exact ⟨Or.inl rfl, Or.inl rfl, Or.inl rfl, Or.inl rfl⟩
  · obtain ⟨g1, g2, g3, g4⟩ := keeps s
    by_cases hm : truthyStr ev.market_id
    · simp only [hm, not_true, if_false, ite_false, if_neg]
      rcases book with _ | b
      · exact ⟨Or.inl g1, Or.inl g2, Or.inl g3, Or.inl g4⟩
      · obtain ⟨q1, q2, q3, q4⟩ :=
          spClauses_aux fb now ev.time_elapsed ev.inplay_status b ev
            (updateGoalTimeline (volatileUpd s ev) s.te s.status s.h s.a ev.ft_score)
            g1 g2 g3 g4
        refine ⟨?_, ?_, ?_, ?_⟩
        · rcases q1 with h | ⟨hn, hw, hne⟩
          · exact Or.inl h
          · exact Or.inr ⟨hn, b, rfl, hw, hne⟩
        · rcases q2 with h | ⟨hn, hw, hne⟩
          · exact Or.inl h
          · exact Or.inr ⟨hn, b, rfl, hw, hne⟩
        · rcases q3 with h | ⟨hn, hw, hne⟩
          · exact Or.inl h
          · exact Or.inr ⟨hn, b, rfl, hw, hne⟩
        · rcases q4 with h | ⟨hn, eh, ea, hh, ha, hv⟩
          · exact Or.inl h
          · exact Or.inr ⟨hn, b, eh, ea, rfl, hh, ha, hv⟩
    · simp only [hm, not_false_iff, if_true, ite_true]
      exact ⟨Or.inl g1, Or.inl g2, Or.inl g3, Or.inl g4⟩

/-- C8 (witness): on a row with captured SPs and favourite, a fresh tick with
a full order book changes neither `h_SP` nor `fav`. -/
theorem C8_sp_write_once_witness :
    (updateInplayInfo true 0 none (some bookC8) evC8).h_SP = some (7 / 2) ∧
    (updateInplayInfo true 0 none (some bookC8) evC8).fav = some 1 :=
  ⟨(C8_sp_write_once true 0 none (some bookC8) evC8 _ rfl).1 (7 / 2) rfl,
   (C8_sp_write_once true 0 none (some bookC8) evC8 _ rfl).2.2.2.1 1 rfl⟩

end FootballTrader
